import Mathlib

/-!
Shallow embedding of the mediasoup worker session handler
(`src/worker/handler.py`) and proofs about its request / notification
dispatch, its transceiver and data-channel registries, its data-channel
lifecycle callbacks, the buffered-amount poller and the statistics
serializers.

Python dictionaries are embedded as association lists with unique keys,
Python exceptions as an explicit error type threaded through `Except`,
and the calls the handler makes into the aiortc engine and onto the
outbound channel as an explicit trace of `Effect` values.  The aiortc
engine itself is external to the repository and is embedded as a record
of the queries the handler performs against it.
-/

namespace AiortcHandler

/-- Python exceptions raised by the handler code, identified by
exception class and message. -/
inductive PyErr where
  | keyError (key : String)
  | typeError (msg : String)
  | attributeError (msg : String)
  | valueError (msg : String)
  deriving DecidableEq, Repr

/-- Modelled from the spec: the error taxonomy of section 7 classifies a
`NotFound` failure as "lookup miss in either registry or by mid".  The
worker surfaces a registry lookup miss as a Python `KeyError` (the
wrapping of exceptions into the RPC error reply is outside
`src/worker/handler.py`); an error of any other exception class is not a
lookup-miss error. -/
def isNotFoundError : PyErr → Bool
  | PyErr.keyError _ => true
  | _ => false

/-- Python dict lookup `m.get(k)`, also the lookup performed by `m[k]`
(which raises `KeyError` on `none`). -/
def dictGet {κ α : Type} [BEq κ] : List (κ × α) → κ → Option α
  | [], _ => none
  | (k2, v) :: rest, k => if k2 == k then some v else dictGet rest k

/-- Python dict assignment `m[k] = v`: replaces the binding in place when
the key is present, appends it otherwise. -/
def dictSet {κ α : Type} [BEq κ] : List (κ × α) → κ → α → List (κ × α)
  | [], k, v => [(k, v)]
  | (k2, v2) :: rest, k, v =>
      if k2 == k then (k, v) :: rest else (k2, v2) :: dictSet rest k v

/-- Python dict deletion `del m[k]` on a dict (whose keys are unique):
the binding for `k` is dropped. -/
def dictDel {κ α : Type} [BEq κ] (m : List (κ × α)) (k : κ) : List (κ × α) :=
  m.filter (fun kv => !(kv.1 == k))

/-- Values carried by outbound notifications and serialized statistics. -/
inductive Value where
  | s (v : String)
  | i (v : Int)
  | n (v : Nat)
  deriving DecidableEq, Repr

/-- aiortc `RTCSessionDescription`: a dataclass holding a type and an sdp
string. -/
structure RTCSessionDescription where
  type : String
  sdp : String
  deriving DecidableEq, Repr

/-- Media track as the handler sees it (the handler only reads its id and
kind). -/
structure Track where
  id : String
  kind : String
  deriving DecidableEq, Repr

/-- aiortc `RTCRtpTransceiver` as the handler reads it: the negotiated
mid (absent before negotiation) and the current direction. -/
structure RTCRtpTransceiver where
  mid : Option String
  direction : String
  deriving DecidableEq, Repr

/-- aiortc `RTCDataChannel` attributes read by the handler. -/
structure RTCDataChannel where
  id : Option Nat
  ordered : Option Bool
  maxPacketLifeTime : Option Nat
  maxRetransmits : Option Nat
  label : Option String
  protocol : Option String
  readyState : String
  bufferedAmount : Nat
  bufferedAmountLowThreshold : Nat
  deriving DecidableEq, Repr

/-- Keyword arguments the handler passes to the engine call
`pc.createDataChannel(...)` (`src/worker/handler.py` lines 238 to 246). -/
structure DCOptions where
  negotiated : Bool
  id : Option Nat
  ordered : Option Bool
  maxPacketLifeTime : Option Nat
  maxRetransmits : Option Nat
  label : Option String
  protocol : Option String
  deriving DecidableEq, Repr

/-- Data-channel descriptor returned by `handler.createDataChannel`
(`src/worker/handler.py` lines 282 to 293). -/
structure DCDescriptor where
  streamId : Option Nat
  ordered : Option Bool
  maxPacketLifeTime : Option Nat
  maxRetransmits : Option Nat
  label : Option String
  protocol : Option String
  readyState : String
  bufferedAmount : Nat
  bufferedAmountLowThreshold : Nat
  deriving DecidableEq, Repr

/-- One entry of an engine statistics report.  The handler reads fields
according to the entry type; numeric fields (including the float-valued
timestamps, which the serializers only copy) are embedded as integers. -/
structure StatsEntry where
  timestamp : Int
  type : String
  id : String
  ssrc : Int
  kind : String
  transportId : String
  packetsReceived : Int
  packetsLost : Int
  jitter : Int
  packetsSent : Int
  bytesSent : Int
  trackId : String
  roundTripTime : Int
  fractionLost : Int
  remoteTimestamp : Int
  bytesReceived : Int
  iceRole : String
  dtlsState : String
  deriving DecidableEq, Repr

/-- Dynamic value carried by an inbound notification's `data` field. -/
inductive NotifData where
  | str (s : String)
  | num (v : Nat)
  | noneD
  deriving DecidableEq, Repr

/-- Fields the handler reads out of a plain-mapping `request.data` via
`data.get(...)` or `data[...]`; a key the orchestrator did not send reads
as `none`. -/
structure ReqData where
  playerId : Option String := none
  kind : Option String := none
  trackId : Option String := none
  mid : Option String := none
  id : Option Nat := none
  ordered : Option Bool := none
  maxPacketLifeTime : Option Nat := none
  maxRetransmits : Option Nat := none
  label : Option String := none
  protocol : Option String := none
  descType : Option String := none
  sdp : Option String := none
  deriving DecidableEq, Repr

/-- Dynamic `request.data`: either a plain mapping or already an
`RTCSessionDescription` instance (the case the isinstance guard in the
set-description branches tests for). -/
inductive ReqPayload where
  | dict (d : ReqData)
  | desc (sd : RTCSessionDescription)
  deriving DecidableEq, Repr

/-- Fields the handler reads out of `request.internal` /
`notification.internal`. -/
structure ReqInternal where
  dataChannelId : Option String := none
  deriving DecidableEq, Repr

/-- Inbound request. -/
structure Request where
  method : String
  data : ReqPayload
  internal : ReqInternal
  deriving DecidableEq, Repr

/-- Inbound notification. -/
structure Notification where
  event : String
  data : NotifData
  internal : ReqInternal
  deriving DecidableEq, Repr

/-- Result value of a successfully processed request.  `noneR` is the
implicit Python `None` returned by branches without a `return`. -/
inductive ReqResult where
  | noneR
  | descR (type : String) (sdp : String)
  | trackIdR (trackId : String)
  | midR (mid : Option String)
  | statsR (m : List (String × List (String × Value)))
  | dcR (d : DCDescriptor)
  deriving DecidableEq, Repr

/-- Observable actions the handler performs: outbound channel
notifications, log lines, engine calls and registry removals.  The trace
order is the order the source performs them in. -/
inductive Effect where
  | notify (target : Option String) (event : String) (payload : Option Value)
  | logWarning (msg : String)
  | engineAddTransceiver (track : Track)
  | setTransceiverDirection (t : RTCRtpTransceiver) (dir : String)
  | replaceSenderTrack (t : RTCRtpTransceiver) (track : Option Track)
  | engineSetLocalDescription (sd : RTCSessionDescription)
  | engineSetRemoteDescription (sd : RTCSessionDescription)
  | engineCreateDataChannel (opts : DCOptions)
  | dcSend (ch : RTCDataChannel) (data : NotifData)
  | dcSendBytes (ch : RTCDataChannel) (bytes : List Nat)
  | registryRemove (key : Option String)
  | dcCloseCall (ch : RTCDataChannel)
  | dcSetBufferedAmountLowThreshold (ch : RTCDataChannel) (value : NotifData)
  deriving DecidableEq, Repr

/-- Mutable state owned by the handler: the transceiver registry keyed by
track id and the data-channel registry keyed by the orchestrator-supplied
`dataChannelId` (taken from `internal.get("dataChannelId")`, hence
possibly absent). -/
structure HandlerState where
  transceivers : List (String × RTCRtpTransceiver)
  dataChannels : List (Option String × RTCDataChannel)
  deriving DecidableEq, Repr

/-- Queries and calls the handler makes against the aiortc engine and the
track source.  The engine is external to the repository; each field
embeds one of the capabilities `src/worker/handler.py` consumes. -/
structure Engine where
  localDescription : Option RTCSessionDescription
  offer : RTCSessionDescription
  answer : RTCSessionDescription
  getTrack : String → String → Track
  addTransceiver : Track → RTCRtpTransceiver
  pcTransceivers : List RTCRtpTransceiver
  pcStats : List (String × StatsEntry)
  senderStats : RTCRtpTransceiver → List (String × StatsEntry)
  receiverStats : RTCRtpTransceiver → List (String × StatsEntry)
  createDC : DCOptions → RTCDataChannel

/-- Standard base64 alphabet used by `base64.b64encode` /
`base64.b64decode`. -/
def b64alphabet : List Char :=
  "ABCDEFGHIJKLMNOPQRSTUVWXYZabcdefghijklmnopqrstuvwxyz0123456789+/".toList

/-- Character for a six-bit group. -/
def b64char (n : Nat) : Char := b64alphabet.getD n 'A'

/-- Python `base64.b64encode` on a byte string (bytes are naturals below
256), producing the ascii characters of the encoding including padding. -/
def b64encode : List Nat → List Char
  | [] => []
  | [a] => [b64char (a / 4), b64char (a % 4 * 16), '=', '=']
  | [a, b] => [b64char (a / 4), b64char (a % 4 * 16 + b / 16), b64char (b % 16 * 4), '=']
  | a :: b :: c :: rest =>
      b64char (a / 4) :: b64char (a % 4 * 16 + b / 16) ::
        b64char (b % 16 * 4 + c / 64) :: b64char (c % 64) :: b64encode rest

/-- Index of a character in the base64 alphabet. -/
def b64index (c : Char) : Option Nat := b64alphabet.findIdx? (fun a => a == c)

/-- Decoding of a base64 character sequence; `none` models the
`binascii.Error` that `base64.b64decode` raises.  Exact on well-formed
base64 input, which is what the orchestrator contract sends. -/
def b64decodeChars : List Char → Option (List Nat)
  | [] => some []
  | [a, b, '=', '='] => do
      let x ← b64index a
      let y ← b64index b
      some [x * 4 + y / 16]
  | [a, b, c, '='] => do
      let x ← b64index a
      let y ← b64index b
      let z ← b64index c
      some [x * 4 + y / 16, y % 16 * 16 + z / 4]
  | a :: b :: c :: d :: rest => do
      let x ← b64index a
      let y ← b64index b
      let z ← b64index c
      let w ← b64index d
      let tail ← b64decodeChars rest
      some ([x * 4 + y / 16, y % 16 * 16 + z / 4, z % 4 * 64 + w] ++ tail)
  | _ => none

/-- Python `base64.b64decode` on a string argument. -/
def b64decode (s : String) : Option (List Nat) := b64decodeChars s.toList

/-- Python quote character as a string. -/
def pyQuote : String := String.mk [Char.ofNat 39]

/-- Python `str(...)` applied to a bytes object: the repr, a `b` prefix
and the content between quotes.  Exact for content made of printable
ascii without quote or backslash characters, which covers every base64
encoding. -/
def pyStrBytes (cs : List Char) : String :=
  "b" ++ pyQuote ++ String.mk cs ++ pyQuote

/-- Serializer `Handler._serializeInboundStats`
(`src/worker/handler.py` lines 379 to 393). -/
def serializeInboundStats (stats : StatsEntry) : List (String × Value) :=
  [("timestamp", Value.i stats.timestamp),
   ("type", Value.s stats.type),
   ("id", Value.s stats.id),
   ("ssrc", Value.i stats.ssrc),
   ("kind", Value.s stats.kind),
   ("transportId", Value.s stats.transportId),
   ("packetsReceived", Value.i stats.packetsReceived),
   ("packetsLost", Value.i stats.packetsLost),
   ("jitter", Value.i stats.jitter)]

/-- Serializer `Handler._serializeOutboundStats`
(`src/worker/handler.py` lines 395 to 410). -/
def serializeOutboundStats (stats : StatsEntry) : List (String × Value) :=
  [("timestamp", Value.i stats.timestamp),
   ("type", Value.s stats.type),
   ("id", Value.s stats.id),
   ("ssrc", Value.i stats.ssrc),
   ("kind", Value.s stats.kind),
   ("transportId", Value.s stats.transportId),
   ("packetsSent", Value.i stats.packetsSent),
   ("bytesSent", Value.i stats.bytesSent),
   ("trackId", Value.s stats.trackId)]

/-- Serializer `Handler._serializeRemoteInboundStats`
(`src/worker/handler.py` lines 412 to 429). -/
def serializeRemoteInboundStats (stats : StatsEntry) : List (String × Value) :=
  [("timestamp", Value.i stats.timestamp),
   ("type", Value.s stats.type),
   ("id", Value.s stats.id),
   ("ssrc", Value.i stats.ssrc),
   ("kind", Value.s stats.kind),
   ("transportId", Value.s stats.transportId),
   ("packetsReceived", Value.i stats.packetsReceived),
   ("packetsLost", Value.i stats.packetsLost),
   ("jitter", Value.i stats.jitter),
   ("roundTripTime", Value.i stats.roundTripTime),
   ("fractionLost", Value.i stats.fractionLost)]

/-- Serializer `Handler._serializeRemoteOutboundStats`
(`src/worker/handler.py` lines 431 to 446). -/
def serializeRemoteOutboundStats (stats : StatsEntry) : List (String × Value) :=
  [("timestamp", Value.i stats.timestamp),
   ("type", Value.s stats.type),
   ("id", Value.s stats.id),
   ("ssrc", Value.i stats.ssrc),
   ("kind", Value.s stats.kind),
   ("transportId", Value.s stats.transportId),
   ("packetsSent", Value.i stats.packetsSent),
   ("bytesSent", Value.i stats.bytesSent),
   ("remoteTimestamp", Value.i stats.remoteTimestamp)]

/-- Serializer `Handler._serializeTransportStats`
(`src/worker/handler.py` lines 448 to 461). -/
def serializeTransportStats (stats : StatsEntry) : List (String × Value) :=
  [("timestamp", Value.i stats.timestamp),
   ("type", Value.s stats.type),
   ("id", Value.s stats.id),
   ("packetsSent", Value.i stats.packetsSent),
   ("packetsReceived", Value.i stats.packetsReceived),
   ("bytesSent", Value.i stats.bytesSent),
   ("bytesReceived", Value.i stats.bytesReceived),
   ("iceRole", Value.s stats.iceRole),
   ("dtlsState", Value.s stats.dtlsState)]

/-- Type dispatch of the `handler.getTransportStats` loop body
(`src/worker/handler.py` lines 171 to 182): entries of the five
recognized types are serialized, every other entry is skipped. -/
def serializeTransportStatsEntry (e : StatsEntry) : Option (List (String × Value)) :=
  if e.type == "inbound-rtp" then some (serializeInboundStats e)
  else if e.type == "outbound-rtp" then some (serializeOutboundStats e)
  else if e.type == "remote-inbound-rtp" then some (serializeRemoteInboundStats e)
  else if e.type == "remote-outbound-rtp" then some (serializeRemoteOutboundStats e)
  else if e.type == "transport" then some (serializeTransportStats e)
  else none

/-- Result map built by the `handler.getTransportStats` branch
(`src/worker/handler.py` lines 168 to 184): one output binding per input
entry of a recognized type, keyed by the same stat id. -/
def getTransportStats (stats : List (String × StatsEntry)) :
    List (String × List (String × Value)) :=
  stats.filterMap (fun kv => (serializeTransportStatsEntry kv.2).map (fun v => (kv.1, v)))

/-- Type dispatch of the `handler.getSenderStats` loop body
(`src/worker/handler.py` lines 196 to 203). -/
def serializeSenderStatsEntry (e : StatsEntry) : Option (List (String × Value)) :=
  if e.type == "outbound-rtp" then some (serializeOutboundStats e)
  else if e.type == "remote-inbound-rtp" then some (serializeRemoteInboundStats e)
  else if e.type == "transport" then some (serializeTransportStats e)
  else none

/-- Result map built by the `handler.getSenderStats` branch. -/
def getSenderStatsMap (stats : List (String × StatsEntry)) :
    List (String × List (String × Value)) :=
  stats.filterMap (fun kv => (serializeSenderStatsEntry kv.2).map (fun v => (kv.1, v)))

/-- Type dispatch of the `handler.getReceiverStats` loop body
(`src/worker/handler.py` lines 217 to 224). -/
def serializeReceiverStatsEntry (e : StatsEntry) : Option (List (String × Value)) :=
  if e.type == "inbound-rtp" then some (serializeInboundStats e)
  else if e.type == "remote-outbound-rtp" then some (serializeRemoteOutboundStats e)
  else if e.type == "transport" then some (serializeTransportStats e)
  else none

/-- Result map built by the `handler.getReceiverStats` branch. -/
def getReceiverStatsMap (stats : List (String × StatsEntry)) :
    List (String × List (String × Value)) :=
  stats.filterMap (fun kv => (serializeReceiverStatsEntry kv.2).map (fun v => (kv.1, v)))

/-- Helper `Handler._getTransceiverByMid` (`src/worker/handler.py` lines
374 to 377): first transceiver of the live engine list whose mid equals
the argument, `none` when no transceiver matches (a transceiver whose
mid is still unassigned compares unequal to every string, as in Python). -/
def getTransceiverByMid (transceivers : List RTCRtpTransceiver) (mid : String) :
    Option RTCRtpTransceiver :=
  transceivers.find? (fun x => x.mid == some mid)

/-- Keyword arguments built by the `handler.createDataChannel` branch for
the engine call: negotiated mode is always requested, the remaining
options are copied from the request data. -/
def createDataChannelOptions (d : ReqData) : DCOptions :=
  { negotiated := true
    id := d.id
    ordered := d.ordered
    maxPacketLifeTime := d.maxPacketLifeTime
    maxRetransmits := d.maxRetransmits
    label := d.label
    protocol := d.protocol }

/-- Methods dispatched by `Handler.processRequest`, in source order of
the conditional chain (`src/worker/handler.py` lines 91 to 298). -/
def handlerMethods : List String :=
  ["handler.getLocalDescription",
   "handler.addTrack",
   "handler.removeTrack",
   "handler.setLocalDescription",
   "handler.setRemoteDescription",
   "handler.createOffer",
   "handler.createAnswer",
   "handler.getMid",
   "handler.getTransportStats",
   "handler.getSenderStats",
   "handler.getReceiverStats",
   "handler.createDataChannel"]

/-- Events dispatched by `Handler.processNotification`, in source order
of the conditional chain (`src/worker/handler.py` lines 300 to 368). -/
def handlerEvents : List String :=
  ["enableTrack",
   "disableTrack",
   "datachannel.send",
   "datachannel.sendBinary",
   "datachannel.close",
   "datachannel.setBufferedAmountLowThreshold"]

/-- Embedding of `Handler.processRequest` (`src/worker/handler.py` lines
90 to 298).  The returned state is the handler state at return or at the
point the Python exception propagates (every raise in the source happens
before any registry mutation of its branch), the effect list is the trace
of engine calls and channel notifications the branch performed, and the
`Except` value is the returned result or the raised exception. -/
def processRequest (eng : Engine) (st : HandlerState) (req : Request) :
    HandlerState × List Effect × Except PyErr ReqResult :=
  if req.method == "handler.getLocalDescription" then
    match eng.localDescription with
    | some localDescription =>
        (st, [], Except.ok (ReqResult.descR localDescription.type localDescription.sdp))
    | none => (st, [], Except.ok ReqResult.noneR)
  else if req.method == "handler.addTrack" then
    match req.data with
    | ReqPayload.desc _ =>
        (st, [], Except.error (PyErr.typeError "RTCSessionDescription object is not subscriptable"))
    | ReqPayload.dict d =>
        match d.playerId with
        | none => (st, [], Except.error (PyErr.keyError "playerId"))
        | some playerId =>
            match d.kind with
            | none => (st, [], Except.error (PyErr.keyError "kind"))
            | some kind =>
                let track := eng.getTrack playerId kind
                let transceiver := eng.addTransceiver track
                ({ st with transceivers := dictSet st.transceivers track.id transceiver },
                 [Effect.engineAddTransceiver track],
                 Except.ok (ReqResult.trackIdR track.id))
  else if req.method == "handler.removeTrack" then
    match req.data with
    | ReqPayload.desc _ =>
        (st, [], Except.error (PyErr.attributeError "RTCSessionDescription object has no attribute get"))
    | ReqPayload.dict d =>
        match d.trackId with
        | none => (st, [], Except.error (PyErr.typeError "missing trackId"))
        | some trackId =>
            match dictGet st.transceivers trackId with
            | none => (st, [], Except.error (PyErr.keyError trackId))
            | some transceiver =>
                ({ st with transceivers := dictDel st.transceivers trackId },
                 [Effect.setTransceiverDirection transceiver "inactive",
                  Effect.replaceSenderTrack transceiver none],
                 Except.ok ReqResult.noneR)
  else if req.method == "handler.setLocalDescription" then
    match req.data with
    | ReqPayload.desc _ =>
        (st, [], Except.error (PyErr.typeError "request data not a RTCSessionDescription"))
    | ReqPayload.dict d =>
        match d.descType, d.sdp with
        | some t, some s =>
            (st, [Effect.engineSetLocalDescription { type := t, sdp := s }],
             Except.ok ReqResult.noneR)
        | _, _ => (st, [], Except.error (PyErr.typeError "missing required argument"))
  else if req.method == "handler.setRemoteDescription" then
    match req.data with
    | ReqPayload.desc _ =>
        (st, [], Except.error (PyErr.typeError "request data not a RTCSessionDescription"))
    | ReqPayload.dict d =>
        match d.descType, d.sdp with
        | some t, some s =>
            (st, [Effect.engineSetRemoteDescription { type := t, sdp := s }],
             Except.ok ReqResult.noneR)
        | _, _ => (st, [], Except.error (PyErr.typeError "missing required argument"))
  else if req.method == "handler.createOffer" then
    (st, [], Except.ok (ReqResult.descR eng.offer.type eng.offer.sdp))
  else if req.method == "handler.createAnswer" then
    (st, [], Except.ok (ReqResult.descR eng.answer.type eng.answer.sdp))
  else if req.method == "handler.getMid" then
    match req.data with
    | ReqPayload.desc _ =>
        (st, [], Except.error (PyErr.attributeError "RTCSessionDescription object has no attribute get"))
    | ReqPayload.dict d =>
        match d.trackId with
        | none => (st, [], Except.error (PyErr.typeError "missing trackId"))
        | some trackId =>
            match dictGet st.transceivers trackId with
            | none => (st, [], Except.error (PyErr.keyError trackId))
            | some transceiver => (st, [], Except.ok (ReqResult.midR transceiver.mid))
  else if req.method == "handler.getTransportStats" then
    (st, [], Except.ok (ReqResult.statsR (getTransportStats eng.pcStats)))
  else if req.method == "handler.getSenderStats" then
    match req.data with
    | ReqPayload.desc _ =>
        (st, [], Except.error (PyErr.attributeError "RTCSessionDescription object has no attribute get"))
    | ReqPayload.dict d =>
        match d.mid with
        | none => (st, [], Except.error (PyErr.typeError "missing mid"))
        | some mid =>
            match getTransceiverByMid eng.pcTransceivers mid with
            | none =>
                (st, [], Except.error (PyErr.attributeError "NoneType object has no attribute sender"))
            | some transceiver =>
                (st, [], Except.ok (ReqResult.statsR (getSenderStatsMap (eng.senderStats transceiver))))
  else if req.method == "handler.getReceiverStats" then
    match req.data with
    | ReqPayload.desc _ =>
        (st, [], Except.error (PyErr.attributeError "RTCSessionDescription object has no attribute get"))
    | ReqPayload.dict d =>
        match d.mid with
        | none => (st, [], Except.error (PyErr.typeError "missing mid"))
        | some mid =>
            match getTransceiverByMid eng.pcTransceivers mid with
            | none =>
                (st, [], Except.error (PyErr.attributeError "NoneType object has no attribute receiver"))
            | some transceiver =>
                (st, [], Except.ok (ReqResult.statsR (getReceiverStatsMap (eng.receiverStats transceiver))))
  else if req.method == "handler.createDataChannel" then
    match req.data with
    | ReqPayload.desc _ =>
        (st, [], Except.error (PyErr.attributeError "RTCSessionDescription object has no attribute get"))
    | ReqPayload.dict d =>
        let dataChannelId := req.internal.dataChannelId
        let opts := createDataChannelOptions d
        let dataChannel := eng.createDC opts
        ({ st with dataChannels := dictSet st.dataChannels dataChannelId dataChannel },
         [Effect.engineCreateDataChannel opts],
         Except.ok (ReqResult.dcR
           { streamId := dataChannel.id
             ordered := dataChannel.ordered
             maxPacketLifeTime := dataChannel.maxPacketLifeTime
             maxRetransmits := dataChannel.maxRetransmits
             label := dataChannel.label
             protocol := dataChannel.protocol
             readyState := dataChannel.readyState
             bufferedAmount := dataChannel.bufferedAmount
             bufferedAmountLowThreshold := dataChannel.bufferedAmountLowThreshold }))
  else
    (st, [], Except.error (PyErr.typeError
      ("unknown request with method " ++ req.method ++ " received")))

/-- Embedding of `Handler.processNotification` (`src/worker/handler.py`
lines 300 to 368), with the same reading of the result as
`processRequest`.  In the `datachannel.close` branch the `try` around the
deletion cannot fail: the preceding `.get` established the key is present
and no suspension point separates the two. -/
def processNotification (st : HandlerState) (n : Notification) :
    HandlerState × List Effect × Except PyErr Unit :=
  if n.event == "enableTrack" then
    (st, [Effect.logWarning "handler: enabling track not implemented"], Except.ok ())
  else if n.event == "disableTrack" then
    (st, [Effect.logWarning "handler: disabling track not implemented"], Except.ok ())
  else if n.event == "datachannel.send" then
    match n.internal.dataChannelId with
    | none => (st, [], Except.error (PyErr.typeError "missing dataChannelId"))
    | some dataChannelId =>
        match dictGet st.dataChannels (some dataChannelId) with
        | none => (st, [], Except.error (PyErr.keyError dataChannelId))
        | some dataChannel =>
            (st,
             [Effect.dcSend dataChannel n.data,
              Effect.notify (some dataChannelId) "bufferedamount"
                (some (Value.n dataChannel.bufferedAmount))],
             Except.ok ())
  else if n.event == "datachannel.sendBinary" then
    match n.internal.dataChannelId with
    | none => (st, [], Except.error (PyErr.typeError "missing dataChannelId"))
    | some dataChannelId =>
        match dictGet st.dataChannels (some dataChannelId) with
        | none => (st, [], Except.error (PyErr.keyError dataChannelId))
        | some dataChannel =>
            match n.data with
            | NotifData.str s =>
                match b64decode s with
                | some bytes =>
                    (st,
                     [Effect.dcSendBytes dataChannel bytes,
                      Effect.notify (some dataChannelId) "bufferedamount"
                        (some (Value.n dataChannel.bufferedAmount))],
                     Except.ok ())
                | none => (st, [], Except.error (PyErr.valueError "invalid base64-encoded string"))
            | _ =>
                (st, [], Except.error
                  (PyErr.typeError "argument should be a bytes-like object or ascii string"))
  else if n.event == "datachannel.close" then
    match n.internal.dataChannelId with
    | none => (st, [], Except.error (PyErr.typeError "missing dataChannelId"))
    | some dataChannelId =>
        match dictGet st.dataChannels (some dataChannelId) with
        | none => (st, [], Except.ok ())
        | some dataChannel =>
            ({ st with dataChannels := dictDel st.dataChannels (some dataChannelId) },
             [Effect.registryRemove (some dataChannelId), Effect.dcCloseCall dataChannel],
             Except.ok ())
  else if n.event == "datachannel.setBufferedAmountLowThreshold" then
    match n.internal.dataChannelId with
    | none => (st, [], Except.error (PyErr.typeError "missing dataChannelId"))
    | some dataChannelId =>
        match dictGet st.dataChannels (some dataChannelId) with
        | none => (st, [], Except.error (PyErr.keyError dataChannelId))
        | some dataChannel =>
            (st, [Effect.dcSetBufferedAmountLowThreshold dataChannel n.data], Except.ok ())
  else
    (st, [], Except.error (PyErr.typeError
      ("unknown notification with event " ++ n.event ++ " received")))

/-- Engine-driven close callback `on_close` registered by
`handler.createDataChannel` (`src/worker/handler.py` lines 259 to 267):
delete the registry entry and emit the `close` notification, and swallow
the `KeyError` raised by the deletion when the entry is already gone (in
which case nothing is emitted).  The callback never raises. -/
def on_close (st : HandlerState) (dataChannelId : Option String) :
    HandlerState × List Effect :=
  match dictGet st.dataChannels dataChannelId with
  | some _ =>
      ({ st with dataChannels := dictDel st.dataChannels dataChannelId },
       [Effect.notify dataChannelId "close" none])
  | none => (st, [])

/-- Message received on a data channel: Python delivers either a str or a
bytes value. -/
inductive PyMessage where
  | text (s : String)
  | binary (bytes : List Nat)
  deriving DecidableEq, Repr

/-- Message callback `on_message` registered by
`handler.createDataChannel` (`src/worker/handler.py` lines 269 to 276):
a str is forwarded unchanged as a `message` notification; a bytes value
is base64-encoded and the Python `str(...)` of the resulting bytes object
is sent as a `binary` notification. -/
def on_message (dataChannelId : Option String) : PyMessage → List Effect
  | PyMessage.text s => [Effect.notify dataChannelId "message" (some (Value.s s))]
  | PyMessage.binary bytes =>
      [Effect.notify dataChannelId "binary"
        (some (Value.s (pyStrBytes (b64encode bytes))))]

/-- One wake of the buffered-amount poller loop body
`checkDataChannelsBufferedAmount` (`src/worker/handler.py` lines 73 to
77): one `bufferedamount` notification per registered data channel, keyed
by the channel's registry identifier. -/
def checkDataChannelsBufferedAmountTick
    (dataChannels : List (Option String × RTCDataChannel)) : List Effect :=
  dataChannels.map (fun kv =>
    Effect.notify kv.1 "bufferedamount" (some (Value.n kv.2.bufferedAmount)))

/-- Test whether an effect is a channel notification aimed at the given
registry key. -/
def isNotifyTo (k : Option String) : Effect → Bool
  | Effect.notify target _ _ => target == k
  | _ => false

/-- Explicit `datachannel.close` notification for a data channel id, as
the orchestrator sends it. -/
def closeNotification (id : String) : Notification :=
  { event := "datachannel.close", data := NotifData.noneD,
    internal := { dataChannelId := some id } }

/-- Close-related occurrences for one data channel id: the orchestrator's
explicit `datachannel.close` notification and the engine-driven `close`
event on the channel (which aiortc also fires after an explicit
`dataChannel.close()` call). -/
inductive DCEvent where
  | explicitClose
  | engineClose
  deriving DecidableEq, Repr

/-- Run of a sequence of close-related occurrences for the data channel
id, accumulating the emitted effects. -/
def runDCEvents (id : String) (st : HandlerState) :
    List DCEvent → HandlerState × List Effect
  | [] => (st, [])
  | ev :: rest =>
      let step : HandlerState × List Effect :=
        match ev with
        | DCEvent.explicitClose =>
            let r := processNotification st (closeNotification id)
            (r.1, r.2.1)
        | DCEvent.engineClose => on_close st (some id)
      let next := runDCEvents id step.1 rest
      (next.1, step.2 ++ next.2)

/-- Number of `close` notifications aimed at the given registry key in an
effect trace. -/
def countCloseNotifs (k : Option String) (effects : List Effect) : Nat :=
  (effects.filter (fun e =>
    match e with
    | Effect.notify target event _ => target == k && event == "close"
    | _ => false)).length

/-!
Concrete fixtures used by the witness and counterexample theorems below.
-/

/-- Sample open data channel. -/
def sampleChannel : RTCDataChannel :=
  { id := some 5, ordered := some true, maxPacketLifeTime := none,
    maxRetransmits := some 3, label := some "chat", protocol := some "sub",
    readyState := "open", bufferedAmount := 7, bufferedAmountLowThreshold := 0 }

/-- Second sample data channel with a different buffered amount. -/
def sampleChannelB : RTCDataChannel :=
  { id := some 6, ordered := some false, maxPacketLifeTime := some 200,
    maxRetransmits := none, label := some "file", protocol := none,
    readyState := "open", bufferedAmount := 42, bufferedAmountLowThreshold := 1 }

/-- Handler state with one registered data channel and no transceivers. -/
def sampleState : HandlerState :=
  { transceivers := [], dataChannels := [(some "dc1", sampleChannel)] }

/-- Handler state with both registries empty. -/
def emptyState : HandlerState :=
  { transceivers := [], dataChannels := [] }

/-- Sample engine: no pending negotiation state, no live transceivers,
empty stats reports, and a `createDataChannel` that accepts every option
unmodified. -/
def sampleEngine : Engine :=
  { localDescription := none
    offer := { type := "offer", sdp := "v=0" }
    answer := { type := "answer", sdp := "v=0" }
    getTrack := fun playerId kind => { id := playerId, kind := kind }
    addTransceiver := fun _ => { mid := none, direction := "sendrecv" }
    pcTransceivers := []
    pcStats := []
    senderStats := fun _ => []
    receiverStats := fun _ => []
    createDC := fun opts =>
      { id := opts.id, ordered := opts.ordered,
        maxPacketLifeTime := opts.maxPacketLifeTime,
        maxRetransmits := opts.maxRetransmits, label := opts.label,
        protocol := opts.protocol, readyState := "connecting",
        bufferedAmount := 0, bufferedAmountLowThreshold := 0 } }

/-- Sample stats entry of a recognized type. -/
def sampleEntryInbound : StatsEntry :=
  { timestamp := 1000, type := "inbound-rtp", id := "s1", ssrc := 2,
    kind := "audio", transportId := "t0", packetsReceived := 3,
    packetsLost := 0, jitter := 1, packetsSent := 0, bytesSent := 0,
    trackId := "tr0", roundTripTime := 0, fractionLost := 0,
    remoteTimestamp := 0, bytesReceived := 0, iceRole := "controlling",
    dtlsState := "connected" }

/-- Sample stats entry of an unrecognized type. -/
def sampleEntryOther : StatsEntry :=
  { sampleEntryInbound with type := "candidate-pair", id := "s2" }

/-- Sample request data for `handler.createDataChannel`. -/
def sampleDCData : ReqData :=
  { id := some 4, ordered := some false, maxPacketLifeTime := some 100,
    maxRetransmits := none, label := some "lbl", protocol := some "proto" }

/-!
Helper lemmas about the registry operations and the close handlers.
-/

/-- Looking up a key right after deleting it misses. -/
theorem dictGet_dictDel {κ α : Type} [BEq κ] (m : List (κ × α)) (k : κ) :
    dictGet (dictDel m k) k = none := by
  induction m with
  | nil => rfl
  | cons hd tl ih =>
      by_cases h : hd.1 == k
      · simpa [dictDel, List.filter_cons, h] using ih
      · simp only [dictDel, List.filter_cons, h] at ih ⊢
        simp [dictGet, h, ih]

/-- Behaviour of the `datachannel.close` branch of `processNotification`
as a function of the registry lookup. -/
theorem processNotification_close_eq (st : HandlerState) (id : String) :
    processNotification st (closeNotification id) =
      match dictGet st.dataChannels (some id) with
      | none => (st, [], Except.ok ())
      | some ch =>
          ({ st with dataChannels := dictDel st.dataChannels (some id) },
           [Effect.registryRemove (some id), Effect.dcCloseCall ch],
           Except.ok ()) := by
  cases h : dictGet st.dataChannels (some id) <;>
    simp [processNotification, closeNotification, h]

/-- Counting close notifications distributes over trace concatenation. -/
theorem countCloseNotifs_append (k : Option String) (a b : List Effect) :
    countCloseNotifs k (a ++ b) = countCloseNotifs k a + countCloseNotifs k b := by
  simp [countCloseNotifs, List.filter_append]

/-- A poller tick over channels whose keys all differ from `k` contains
no notification aimed at `k`. -/
theorem filterTick_eq_nil (k : Option String) (tl : List (Option String × RTCDataChannel))
    (hk : k ∉ tl.map Prod.fst) :
    (checkDataChannelsBufferedAmountTick tl).filter (isNotifyTo k) = [] := by
  rw [List.filter_eq_nil_iff]
  intro e he
  rw [checkDataChannelsBufferedAmountTick, List.mem_map] at he
  obtain ⟨kv, hkv, rfl⟩ := he
  have : kv.1 ≠ k := fun hc => hk (hc ▸ List.mem_map_of_mem Prod.fst hkv)
  simp [isNotifyTo, this]

/-- Characterization of the per-entry serializer choice made by the
`handler.getTransportStats` loop. -/
theorem serializeTransportStatsEntry_eq_some (e : StatsEntry) (v : List (String × Value)) :
    serializeTransportStatsEntry e = some v ↔
      (e.type = "inbound-rtp" ∧ v = serializeInboundStats e) ∨
      (e.type = "outbound-rtp" ∧ v = serializeOutboundStats e) ∨
      (e.type = "remote-inbound-rtp" ∧ v = serializeRemoteInboundStats e) ∨
      (e.type = "remote-outbound-rtp" ∧ v = serializeRemoteOutboundStats e) ∨
      (e.type = "transport" ∧ v = serializeTransportStats e) := by
  unfold serializeTransportStatsEntry
  split_ifs with h1 h2 h3 h4 h5
  · rw [beq_iff_eq] at h1
    simp only [h1, Option.some.injEq]
    constructor
    · intro hv
      exact Or.inl ⟨by trivial, hv.symm⟩
    · rintro (⟨ht, hv⟩ | ⟨ht, hv⟩ | ⟨ht, hv⟩ | ⟨ht, hv⟩ | ⟨ht, hv⟩) <;>
        first
          | exact ht.elim
          | exact absurd ht (by decide)
          | exact hv.symm
  · rw [beq_iff_eq] at h2
    simp only [h2, Option.some.injEq]
    constructor
    · intro hv
      exact Or.inr (Or.inl ⟨by trivial, hv.symm⟩)
    · rintro (⟨ht, hv⟩ | ⟨ht, hv⟩ | ⟨ht, hv⟩ | ⟨ht, hv⟩ | ⟨ht, hv⟩) <;>
        first
          | exact ht.elim
          | exact absurd ht (by decide)
          | exact hv.symm
  · rw [beq_iff_eq] at h3
    simp only [h3, Option.some.injEq]
    constructor
    · intro hv
      exact Or.inr (Or.inr (Or.inl ⟨by trivial, hv.symm⟩))
    · rintro (⟨ht, hv⟩ | ⟨ht, hv⟩ | ⟨ht, hv⟩ | ⟨ht, hv⟩ | ⟨ht, hv⟩) <;>
        first
          | exact ht.elim
          | exact absurd ht (by decide)
          | exact hv.symm
  · rw [beq_iff_eq] at h4
    simp only [h4, Option.some.injEq]
    constructor
    · intro hv
      exact Or.inr (Or.inr (Or.inr (Or.inl ⟨by trivial, hv.symm⟩)))
    · rintro (⟨ht, hv⟩ | ⟨ht, hv⟩ | ⟨ht, hv⟩ | ⟨ht, hv⟩ | ⟨ht, hv⟩) <;>
        first
          | exact ht.elim
          | exact absurd ht (by decide)
          | exact hv.symm
  · rw [beq_iff_eq] at h5
    simp only [h5, Option.some.injEq]
    constructor
    · intro hv
      exact Or.inr (Or.inr (Or.inr (Or.inr ⟨by trivial, hv.symm⟩)))
    · rintro (⟨ht, hv⟩ | ⟨ht, hv⟩ | ⟨ht, hv⟩ | ⟨ht, hv⟩ | ⟨ht, hv⟩) <;>
        first
          | exact ht.elim
          | exact absurd ht (by decide)
          | exact hv.symm
  · simp only [beq_iff_eq] at h1 h2 h3 h4 h5
    simp [h1, h2, h3, h4, h5]

/-!
Claim theorems.
-/

/-- C1: processing a `datachannel.close` notification whose identifier is
absent from the data-channel registry (in particular a second close for
an identifier already removed by a first one) is a silent no-op: it
raises no error, emits nothing, and leaves the state unchanged; when the
identifier is present, the handler removes the registry entry first and
then calls close on the channel handle. -/
theorem datachannel_close_idempotent (st : HandlerState) (id : String) :
    (dictGet st.dataChannels (some id) = none →
      processNotification st (closeNotification id) = (st, [], Except.ok ())) ∧
    (∀ ch, dictGet st.dataChannels (some id) = some ch →
      processNotification st (closeNotification id) =
        ({ st with dataChannels := dictDel st.dataChannels (some id) },
         [Effect.registryRemove (some id), Effect.dcCloseCall ch], Except.ok ()) ∧
      processNotification { st with dataChannels := dictDel st.dataChannels (some id) }
          (closeNotification id) =
        ({ st with dataChannels := dictDel st.dataChannels (some id) }, [], Except.ok ())) := by
  refine ⟨fun h => ?_, fun ch h => ⟨?_, ?_⟩⟩
  · rw [processNotification_close_eq, h]
  · rw [processNotification_close_eq, h]
  · rw [processNotification_close_eq]
    have hd : dictGet (dictDel st.dataChannels (some id)) (some id) = none :=
      dictGet_dictDel _ _
    simp [hd]

/-- Witness for C1 at a concrete state with one registered channel. -/
theorem datachannel_close_idempotent_witness :
    processNotification sampleState (closeNotification "dc1") =
      ({ sampleState with dataChannels := dictDel sampleState.dataChannels (some "dc1") },
       [Effect.registryRemove (some "dc1"), Effect.dcCloseCall sampleChannel],
       Except.ok ()) ∧
    processNotification
        { sampleState with dataChannels := dictDel sampleState.dataChannels (some "dc1") }
        (closeNotification "dc1") =
      ({ sampleState with dataChannels := dictDel sampleState.dataChannels (some "dc1") },
       [], Except.ok ()) ∧
    processNotification emptyState (closeNotification "dc1") =
      (emptyState, [], Except.ok ()) := by
  have h := (datachannel_close_idempotent sampleState "dc1").2 sampleChannel rfl
  exact ⟨h.1, h.2, (datachannel_close_idempotent emptyState "dc1").1 rfl⟩

/-- C2: across any run of explicit `datachannel.close` notifications and
engine-driven close events for one identifier, at most one `close`
notification is emitted while the identifier is registered and none once
it is absent; in particular an engine-driven close event arriving after
an explicit close neither raises (the callback swallows the `KeyError`
and is total) nor emits a second `close` notification. -/
theorem close_notification_emitted_at_most_once
    (st : HandlerState) (id : String) (evs : List DCEvent) :
    countCloseNotifs (some id) (runDCEvents id st evs).2 ≤
      (if (dictGet st.dataChannels (some id)).isSome then 1 else 0) := by
  induction evs generalizing st with
  | nil => simp [runDCEvents, countCloseNotifs]
  | cons ev rest ih =>
      cases ev with
      | explicitClose =>
          cases h : dictGet st.dataChannels (some id) with
          | none =>
              have hp := processNotification_close_eq st id
              rw [h] at hp
              simp only [runDCEvents, hp, countCloseNotifs_append]
              have hr := ih st
              rw [h] at hr
              simpa [countCloseNotifs, h] using hr
          | some ch =>
              have hp := processNotification_close_eq st id
              rw [h] at hp
              simp only [runDCEvents, hp, countCloseNotifs_append]
              have hstep : countCloseNotifs (some id)
                  [Effect.registryRemove (some id), Effect.dcCloseCall ch] = 0 := rfl
              rw [hstep]
              have hb := ih { st with dataChannels := dictDel st.dataChannels (some id) }
              rw [show dictGet (dictDel st.dataChannels (some id)) (some id) = none from
                dictGet_dictDel _ _] at hb
              simp only [Option.isSome_none, Bool.false_eq_true, if_false] at hb
              simp only [Option.isSome_some, if_true]
              omega
      | engineClose =>
          cases h : dictGet st.dataChannels (some id) with
          | none =>
              simp only [runDCEvents, on_close, h, countCloseNotifs_append]
              have hr := ih st
              rw [h] at hr
              simpa [countCloseNotifs, h] using hr
          | some ch =>
              simp only [runDCEvents, on_close, h, countCloseNotifs_append]
              have hstep : countCloseNotifs (some id)
                  [Effect.notify (some id) "close" none] = 1 := by
                simp [countCloseNotifs]
              rw [hstep]
              have hb := ih { st with dataChannels := dictDel st.dataChannels (some id) }
              rw [show dictGet (dictDel st.dataChannels (some id)) (some id) = none from
                dictGet_dictDel _ _] at hb
              simp only [Option.isSome_none, Bool.false_eq_true, if_false] at hb
              simp only [Option.isSome_some, if_true]
              omega

/-- Witness for C2: explicit close followed by an engine-driven close for
the same registered identifier emits at most one close notification. -/
theorem close_notification_emitted_at_most_once_witness :
    countCloseNotifs (some "dc1")
      (runDCEvents "dc1" sampleState [DCEvent.explicitClose, DCEvent.engineClose]).2 ≤ 1 := by
  have h := close_notification_emitted_at_most_once sampleState "dc1"
    [DCEvent.explicitClose, DCEvent.engineClose]
  exact le_trans h (by decide)

/-- C3: for a trackId absent from the transceiver registry, both
`handler.removeTrack` and `handler.getMid` fail with the registry
lookup-miss error (`KeyError`, the worker's NotFound), and the state is
unchanged on that failure. -/
theorem removeTrack_getMid_notFound_on_absent
    (eng : Engine) (st : HandlerState) (trackId : String) (d : ReqData)
    (hd : d.trackId = some trackId)
    (h : dictGet st.transceivers trackId = none) :
    processRequest eng st
        { method := "handler.removeTrack", data := ReqPayload.dict d,
          internal := { dataChannelId := none } } =
      (st, [], Except.error (PyErr.keyError trackId)) ∧
    processRequest eng st
        { method := "handler.getMid", data := ReqPayload.dict d,
          internal := { dataChannelId := none } } =
      (st, [], Except.error (PyErr.keyError trackId)) ∧
    isNotFoundError (PyErr.keyError trackId) = true := by
  refine ⟨?_, ?_, rfl⟩ <;> simp [processRequest, hd, h]

/-- Witness for C3 at an empty registry. -/
theorem removeTrack_getMid_notFound_on_absent_witness :
    processRequest sampleEngine emptyState
        { method := "handler.removeTrack", data := ReqPayload.dict { trackId := some "t1" },
          internal := { dataChannelId := none } } =
      (emptyState, [], Except.error (PyErr.keyError "t1")) ∧
    processRequest sampleEngine emptyState
        { method := "handler.getMid", data := ReqPayload.dict { trackId := some "t1" },
          internal := { dataChannelId := none } } =
      (emptyState, [], Except.error (PyErr.keyError "t1")) := by
  have h := removeTrack_getMid_notFound_on_absent sampleEngine emptyState "t1"
    { trackId := some "t1" } rfl rfl
  exact ⟨h.1, h.2.1⟩

/-- C4 counterexample: with no transceiver matching the requested mid,
`handler.getSenderStats` fails with an `AttributeError` raised by
dereferencing the `None` returned by the by-mid lookup, which is not a
lookup-miss (`KeyError` / NotFound) failure. -/
theorem getStats_unmatched_mid_counterexample :
    processRequest sampleEngine emptyState
        { method := "handler.getSenderStats", data := ReqPayload.dict { mid := some "0" },
          internal := { dataChannelId := none } } =
      (emptyState, [],
       Except.error (PyErr.attributeError "NoneType object has no attribute sender")) ∧
    isNotFoundError (PyErr.attributeError "NoneType object has no attribute sender") = false := by
  exact ⟨rfl, rfl⟩

/-- C4 (amended): for every mid matched by no transceiver of the engine's
live transceiver list, `handler.getSenderStats` and
`handler.getReceiverStats` fail — but with an `AttributeError` from
dereferencing the absent (`None`) transceiver, not with a NotFound
lookup-miss error; the state is unchanged on that failure. -/
theorem getStats_unmatched_mid_attributeError
    (eng : Engine) (st : HandlerState) (mid : String) (d : ReqData)
    (hd : d.mid = some mid)
    (h : getTransceiverByMid eng.pcTransceivers mid = none) :
    processRequest eng st
        { method := "handler.getSenderStats", data := ReqPayload.dict d,
          internal := { dataChannelId := none } } =
      (st, [], Except.error (PyErr.attributeError "NoneType object has no attribute sender")) ∧
    processRequest eng st
        { method := "handler.getReceiverStats", data := ReqPayload.dict d,
          internal := { dataChannelId := none } } =
      (st, [], Except.error (PyErr.attributeError "NoneType object has no attribute receiver")) ∧
    isNotFoundError (PyErr.attributeError "NoneType object has no attribute sender") = false ∧
    isNotFoundError (PyErr.attributeError "NoneType object has no attribute receiver") = false := by
  refine ⟨?_, ?_, rfl, rfl⟩ <;> simp [processRequest, hd, h]

/-- Witness for the amended C4 at an engine with no live transceivers. -/
theorem getStats_unmatched_mid_attributeError_witness :
    processRequest sampleEngine emptyState
        { method := "handler.getReceiverStats", data := ReqPayload.dict { mid := some "1" },
          internal := { dataChannelId := none } } =
      (emptyState, [],
       Except.error (PyErr.attributeError "NoneType object has no attribute receiver")) := by
  have h := getStats_unmatched_mid_attributeError sampleEngine emptyState "1"
    { mid := some "1" } rfl rfl
  exact h.2.1

/-- C5: one wake of the buffered-amount poller over a registry of N
channels (unmutated during the tick, keys unique) emits exactly N
`bufferedamount` notifications, exactly one aimed at each registered
identifier and carrying that channel's buffered amount. -/
theorem poller_emits_one_notification_per_channel
    (dcs : List (Option String × RTCDataChannel)) :
    (dcs.map Prod.fst).Nodup →
    (checkDataChannelsBufferedAmountTick dcs).length = dcs.length ∧
    ∀ k ch, (k, ch) ∈ dcs →
      (checkDataChannelsBufferedAmountTick dcs).filter (isNotifyTo k) =
        [Effect.notify k "bufferedamount" (some (Value.n ch.bufferedAmount))] := by
  intro h
  refine ⟨by simp [checkDataChannelsBufferedAmountTick], ?_⟩
  induction dcs with
  | nil => intro k ch hmem; cases hmem
  | cons hd tl ih =>
      obtain ⟨k2, ch2⟩ := hd
      rw [List.map_cons, List.nodup_cons] at h
      obtain ⟨hnot, hnd⟩ := h
      intro k ch hmem
      rcases List.mem_cons.1 hmem with heq | hmem2
      · rw [Prod.mk.injEq] at heq
        obtain ⟨hk, hch⟩ := heq
        subst hk; subst hch
        rw [checkDataChannelsBufferedAmountTick, List.map_cons, List.filter_cons]
        have hself : isNotifyTo k (Effect.notify k "bufferedamount"
            (some (Value.n ch.bufferedAmount))) = true := by simp [isNotifyTo]
        rw [hself]
        simp only [if_true]
        rw [show (List.map (fun kv =>
            Effect.notify kv.1 "bufferedamount" (some (Value.n kv.2.bufferedAmount))) tl) =
          checkDataChannelsBufferedAmountTick tl from rfl]
        rw [filterTick_eq_nil k tl hnot]
      · have hkmem : k ∈ tl.map Prod.fst := List.mem_map_of_mem Prod.fst hmem2
        have hne : k2 ≠ k := fun hc => hnot (hc ▸ hkmem)
        rw [checkDataChannelsBufferedAmountTick, List.map_cons, List.filter_cons]
        have hhead : isNotifyTo k (Effect.notify k2 "bufferedamount"
            (some (Value.n ch2.bufferedAmount))) = false := by simp [isNotifyTo, hne]
        rw [hhead]
        simp only [Bool.false_eq_true, if_false]
        exact ih hnd k ch hmem2

/-- Witness for C5 at a two-channel registry. -/
theorem poller_emits_one_notification_per_channel_witness :
    (checkDataChannelsBufferedAmountTick
        [(some "a", sampleChannel), (some "b", sampleChannelB)]).length = 2 ∧
    (checkDataChannelsBufferedAmountTick
        [(some "a", sampleChannel), (some "b", sampleChannelB)]).filter
        (isNotifyTo (some "a")) =
      [Effect.notify (some "a") "bufferedamount" (some (Value.n 7))] := by
  have h := poller_emits_one_notification_per_channel
    [(some "a", sampleChannel), (some "b", sampleChannelB)] (by decide)
  exact ⟨h.1, h.2 (some "a") sampleChannel (by simp)⟩

/-- C6: the result of `handler.getTransportStats` contains exactly the
entries of the raw report whose type is one of the five recognized types,
each serialized with the field set listed for that type; an entry of any
other type is absent from the result and causes no error (the map is
total). -/
theorem getTransportStats_recognized_types_only
    (stats : List (String × StatsEntry)) (k : String) (v : List (String × Value)) :
    ((k, v) ∈ getTransportStats stats ↔
      ∃ e, (k, e) ∈ stats ∧
        ((e.type = "inbound-rtp" ∧ v = serializeInboundStats e) ∨
         (e.type = "outbound-rtp" ∧ v = serializeOutboundStats e) ∨
         (e.type = "remote-inbound-rtp" ∧ v = serializeRemoteInboundStats e) ∨
         (e.type = "remote-outbound-rtp" ∧ v = serializeRemoteOutboundStats e) ∨
         (e.type = "transport" ∧ v = serializeTransportStats e))) ∧
    (∀ e : StatsEntry, (serializeInboundStats e).map Prod.fst =
      ["timestamp", "type", "id", "ssrc", "kind", "transportId",
       "packetsReceived", "packetsLost", "jitter"]) ∧
    (∀ e : StatsEntry, (serializeOutboundStats e).map Prod.fst =
      ["timestamp", "type", "id", "ssrc", "kind", "transportId",
       "packetsSent", "bytesSent", "trackId"]) ∧
    (∀ e : StatsEntry, (serializeRemoteInboundStats e).map Prod.fst =
      ["timestamp", "type", "id", "ssrc", "kind", "transportId",
       "packetsReceived", "packetsLost", "jitter", "roundTripTime", "fractionLost"]) ∧
    (∀ e : StatsEntry, (serializeRemoteOutboundStats e).map Prod.fst =
      ["timestamp", "type", "id", "ssrc", "kind", "transportId",
       "packetsSent", "bytesSent", "remoteTimestamp"]) ∧
    (∀ e : StatsEntry, (serializeTransportStats e).map Prod.fst =
      ["timestamp", "type", "id", "packetsSent", "packetsReceived",
       "bytesSent", "bytesReceived", "iceRole", "dtlsState"]) := by
  refine ⟨?_, fun e => rfl, fun e => rfl, fun e => rfl, fun e => rfl, fun e => rfl⟩
  constructor
  · intro hmem
    rw [getTransportStats, List.mem_filterMap] at hmem
    obtain ⟨⟨k2, e⟩, hin, hf⟩ := hmem
    rw [Option.map_eq_some'] at hf
    obtain ⟨v2, hser, heq⟩ := hf
    rw [Prod.mk.injEq] at heq
    obtain ⟨hk, hv⟩ := heq
    subst hk; subst hv
    exact ⟨e, hin, (serializeTransportStatsEntry_eq_some e v2).1 hser⟩
  · rintro ⟨e, hin, hcase⟩
    rw [getTransportStats, List.mem_filterMap]
    refine ⟨(k, e), hin, ?_⟩
    rw [(serializeTransportStatsEntry_eq_some e v).2 hcase]
    rfl

/-- Witness for C6: a recognized entry appears in the result alongside an
unrecognized one that does not prevent it. -/
theorem getTransportStats_recognized_types_only_witness :
    ("s1", serializeInboundStats sampleEntryInbound) ∈
      getTransportStats [("s1", sampleEntryInbound), ("s2", sampleEntryOther)] := by
  have h := (getTransportStats_recognized_types_only
    [("s1", sampleEntryInbound), ("s2", sampleEntryOther)] "s1"
    (serializeInboundStats sampleEntryInbound)).1
  exact h.2 ⟨sampleEntryInbound, List.mem_cons_self _ _, Or.inl ⟨rfl, rfl⟩⟩

/-- C7 counterexample: the request dispatcher has twelve handler methods,
not thirteen. -/
theorem handler_method_count_counterexample :
    handlerMethods.length = 12 ∧ (handlerMethods.length == 13) = false := by
  decide

/-- C7 (amended): for every request whose method is not one of the twelve
dispatched handler methods, `processRequest` fails with the
unknown-method `TypeError` (the worker's UnsupportedOperation) and
changes no state; likewise `processNotification` for every notification
whose event is not one of the six dispatched events. -/
theorem unknown_method_or_event_unsupported
    (eng : Engine) (st : HandlerState) (req : Request) (n : Notification) :
    (req.method ∉ handlerMethods →
      processRequest eng st req =
        (st, [], Except.error (PyErr.typeError
          ("unknown request with method " ++ req.method ++ " received")))) ∧
    (n.event ∉ handlerEvents →
      processNotification st n =
        (st, [], Except.error (PyErr.typeError
          ("unknown notification with event " ++ n.event ++ " received")))) := by
  constructor
  · intro h
    simp only [handlerMethods, List.mem_cons, List.not_mem_nil, or_false, not_or] at h
    obtain ⟨h1, h2, h3, h4, h5, h6, h7, h8, h9, h10, h11, h12⟩ := h
    simp [processRequest, h1, h2, h3, h4, h5, h6, h7, h8, h9, h10, h11, h12]
  · intro h
    simp only [handlerEvents, List.mem_cons, List.not_mem_nil, or_false, not_or] at h
    obtain ⟨h1, h2, h3, h4, h5, h6⟩ := h
    simp [processNotification, h1, h2, h3, h4, h5, h6]

/-- Witness for the amended C7 at a bogus method and a bogus event. -/
theorem unknown_method_or_event_unsupported_witness :
    processRequest sampleEngine emptyState
        { method := "handler.bogus", data := ReqPayload.dict {},
          internal := { dataChannelId := none } } =
      (emptyState, [], Except.error (PyErr.typeError
        "unknown request with method handler.bogus received")) ∧
    processNotification emptyState
        { event := "bogus", data := NotifData.noneD,
          internal := { dataChannelId := none } } =
      (emptyState, [], Except.error (PyErr.typeError
        "unknown notification with event bogus received")) := by
  have h := unknown_method_or_event_unsupported sampleEngine emptyState
    { method := "handler.bogus", data := ReqPayload.dict {},
      internal := { dataChannelId := none } }
    { event := "bogus", data := NotifData.noneD,
      internal := { dataChannelId := none } }
  exact ⟨h.1 (by decide), h.2 (by decide)⟩

/-- C8: evaluation of the data-channel message callback.  A str message
is forwarded unchanged as a `message` notification.  A bytes message, the
two bytes of the ascii text hi here, is base64-encoded to the text aGk=
but the `binary` notification carries the Python `str(...)` of the bytes
object, which is the quote-wrapped, b-prefixed repr and differs from the
base64 text itself. -/
theorem binary_message_payload_python_repr :
    on_message (some "dc1") (PyMessage.binary [104, 105]) =
      [Effect.notify (some "dc1") "binary"
        (some (Value.s (pyStrBytes (b64encode [104, 105]))))] ∧
    on_message (some "dc1") (PyMessage.text "hello") =
      [Effect.notify (some "dc1") "message" (some (Value.s "hello"))] ∧
    String.mk (b64encode [104, 105]) = "aGk=" ∧
    pyStrBytes (b64encode [104, 105]) ≠ "aGk=" := by
  refine ⟨rfl, rfl, by decide, by decide⟩

/-- C9: when the engine accepts the `handler.createDataChannel` options
unmodified, the returned descriptor's ordered, maxPacketLifeTime,
maxRetransmits, label and protocol fields equal the values supplied in
the request data, and the engine call is made with negotiated mode
requested. -/
theorem createDataChannel_descriptor_roundtrip
    (eng : Engine) (st : HandlerState) (d : ReqData) (intl : ReqInternal)
    (h1 : (eng.createDC (createDataChannelOptions d)).ordered = d.ordered)
    (h2 : (eng.createDC (createDataChannelOptions d)).maxPacketLifeTime = d.maxPacketLifeTime)
    (h3 : (eng.createDC (createDataChannelOptions d)).maxRetransmits = d.maxRetransmits)
    (h4 : (eng.createDC (createDataChannelOptions d)).label = d.label)
    (h5 : (eng.createDC (createDataChannelOptions d)).protocol = d.protocol) :
    processRequest eng st
        { method := "handler.createDataChannel", data := ReqPayload.dict d, internal := intl } =
      ({ st with dataChannels := (dictSet st.dataChannels intl.dataChannelId
           (eng.createDC (createDataChannelOptions d))) },
       [Effect.engineCreateDataChannel (createDataChannelOptions d)],
       Except.ok (ReqResult.dcR
         { streamId := (eng.createDC (createDataChannelOptions d)).id
           ordered := d.ordered
           maxPacketLifeTime := d.maxPacketLifeTime
           maxRetransmits := d.maxRetransmits
           label := d.label
           protocol := d.protocol
           readyState := (eng.createDC (createDataChannelOptions d)).readyState
           bufferedAmount := (eng.createDC (createDataChannelOptions d)).bufferedAmount
           bufferedAmountLowThreshold :=
             (eng.createDC (createDataChannelOptions d)).bufferedAmountLowThreshold })) ∧
    (createDataChannelOptions d).negotiated = true := by
  constructor
  · simp [processRequest, h1, h2, h3, h4, h5]
  · rfl

/-- Witness for C9 at an engine that echoes every option. -/
theorem createDataChannel_descriptor_roundtrip_witness :
    processRequest sampleEngine emptyState
        { method := "handler.createDataChannel", data := ReqPayload.dict sampleDCData,
          internal := { dataChannelId := some "dc9" } } =
      ({ emptyState with dataChannels := (dictSet emptyState.dataChannels (some "dc9")
           (sampleEngine.createDC (createDataChannelOptions sampleDCData))) },
       [Effect.engineCreateDataChannel (createDataChannelOptions sampleDCData)],
       Except.ok (ReqResult.dcR
         { streamId := (sampleEngine.createDC (createDataChannelOptions sampleDCData)).id
           ordered := sampleDCData.ordered
           maxPacketLifeTime := sampleDCData.maxPacketLifeTime
           maxRetransmits := sampleDCData.maxRetransmits
           label := sampleDCData.label
           protocol := sampleDCData.protocol
           readyState := (sampleEngine.createDC (createDataChannelOptions sampleDCData)).readyState
           bufferedAmount :=
             (sampleEngine.createDC (createDataChannelOptions sampleDCData)).bufferedAmount
           bufferedAmountLowThreshold :=
             (sampleEngine.createDC
               (createDataChannelOptions sampleDCData)).bufferedAmountLowThreshold })) ∧
    (createDataChannelOptions sampleDCData).negotiated = true := by
  exact createDataChannel_descriptor_roundtrip sampleEngine emptyState sampleDCData
    { dataChannelId := some "dc9" } rfl rfl rfl rfl rfl

/-- C10: for `handler.setLocalDescription` and
`handler.setRemoteDescription`, the handler raises the guard's
`TypeError` exactly when `request.data` is already an
`RTCSessionDescription` instance; a plain type-and-sdp mapping raises no
such error and is passed to the engine as a freshly constructed session
description. -/
theorem setDescription_guard_rejects_instance
    (eng : Engine) (st : HandlerState) (sd : RTCSessionDescription)
    (d : ReqData) (t s : String) (ht : d.descType = some t) (hs : d.sdp = some s) :
    processRequest eng st
        { method := "handler.setLocalDescription", data := ReqPayload.desc sd,
          internal := { dataChannelId := none } } =
      (st, [], Except.error (PyErr.typeError "request data not a RTCSessionDescription")) ∧
    processRequest eng st
        { method := "handler.setRemoteDescription", data := ReqPayload.desc sd,
          internal := { dataChannelId := none } } =
      (st, [], Except.error (PyErr.typeError "request data not a RTCSessionDescription")) ∧
    processRequest eng st
        { method := "handler.setLocalDescription", data := ReqPayload.dict d,
          internal := { dataChannelId := none } } =
      (st, [Effect.engineSetLocalDescription { type := t, sdp := s }],
       Except.ok ReqResult.noneR) ∧
    processRequest eng st
        { method := "handler.setRemoteDescription", data := ReqPayload.dict d,
          internal := { dataChannelId := none } } =
      (st, [Effect.engineSetRemoteDescription { type := t, sdp := s }],
       Except.ok ReqResult.noneR) := by
  refine ⟨?_, ?_, ?_, ?_⟩ <;> simp [processRequest, ht, hs]

/-- Witness for C10 at a concrete description. -/
theorem setDescription_guard_rejects_instance_witness :
    processRequest sampleEngine emptyState
        { method := "handler.setLocalDescription",
          data := ReqPayload.desc { type := "offer", sdp := "v=0" },
          internal := { dataChannelId := none } } =
      (emptyState, [], Except.error (PyErr.typeError "request data not a RTCSessionDescription")) ∧
    processRequest sampleEngine emptyState
        { method := "handler.setLocalDescription",
          data := ReqPayload.dict { descType := some "offer", sdp := some "v=0" },
          internal := { dataChannelId := none } } =
      (emptyState, [Effect.engineSetLocalDescription { type := "offer", sdp := "v=0" }],
       Except.ok ReqResult.noneR) := by
  have h := setDescription_guard_rejects_instance sampleEngine emptyState
    { type := "offer", sdp := "v=0" }
    { descType := some "offer", sdp := some "v=0" } "offer" "v=0" rfl rfl
  exact ⟨h.1, h.2.2.1⟩

end AiortcHandler
